import Mathlib

/-!
Shallow embedding of the credit-metering and generation-orchestration core of
the neural-speak repository: the `generateSpeech` server action, the
`deleteAudioProject` action, the billing webhook handler `onOrderPaid`, and
the `uploadVoice` action, together with a small interleaving model of the
check-then-debit sequence used to analyse the balance invariant under
concurrent requests.

Strings that may be absent at runtime are `Option String` (JavaScript
`undefined`); the falsiness test `!x` on a string is `none` or the empty
string.  Credit balances are `ℤ` (the datastore column is a signed integer
and the atomic decrement is unconditional).  The two synthesis control
parameters are `Option ℚ` in a request (absent = `undefined`); no arithmetic
is performed on them, they are only copied, so exact rationals model the
JavaScript numbers faithfully.
-/

/-- Falsiness of a JavaScript string value: `!x` is true when the value is
`undefined` or the empty string. -/
def strFalsy : Option String → Bool
  | none => true
  | some s => s.isEmpty

/-- Input parameters of `generateSpeech` (interface `GenerateSpeechData`).
Fields are optional at runtime even though the TypeScript type marks them
required: the action re-checks presence itself. -/
structure GenerateSpeechData where
  text : Option String
  voice_S3_key : Option String
  language : Option String
  exaggeration : Option ℚ
  cfg_weight : Option ℚ
deriving DecidableEq, Repr

/-- Result object of `generateSpeech` (interface `GenerateSpeechResult`). -/
structure GenerateSpeechResult where
  success : Bool
  s3_key : Option String := none
  audioUrl : Option String := none
  projectId : Option String := none
  error : Option String := none
deriving DecidableEq, Repr

/-- One row of the `audioProject` table, with the columns written by
`db.audioProject.create` in `generateSpeech`. -/
structure AudioProject where
  id : String
  text : String
  audioUrl : String
  s3Key : String
  language : String
  voiceS3key : String
  exaggeration : ℚ
  cfgWeight : ℚ
  userId : String
deriving DecidableEq, Repr

/-- The durable state the core mutates: the per-user credit column of the
`user` table and the `audioProject` table. -/
structure DBState where
  users : List (String × ℤ)
  projects : List AudioProject
deriving DecidableEq, Repr

/-- Read a user's credit balance (`db.user.findUnique` selecting `credits`). -/
def DBState.findCredits (db : DBState) (uid : String) : Option ℤ :=
  db.users.lookup uid

/-- Atomic unconditional decrement (`credits: { decrement: n }`): Prisma
issues `credits = credits - n` with no floor check. -/
def DBState.debit (db : DBState) (uid : String) (n : ℕ) : DBState :=
  { db with users := db.users.map fun p => if p.1 = uid then (p.1, p.2 - n) else p }

/-- Atomic unconditional increment (`credits: { increment: n }`). -/
def DBState.credit (db : DBState) (uid : String) (n : ℕ) : DBState :=
  { db with users := db.users.map fun p => if p.1 = uid then (p.1, p.2 + n) else p }

/-- Lookup of an `audioProject` row by id (`db.audioProject.findUnique`). -/
def DBState.findProject (db : DBState) (id : String) : Option AudioProject :=
  db.projects.find? fun p => p.id == id

/-- Base URL of the S3 bucket holding generated audio. -/
def S3_BUCKET_URL : String := "https://neural-speak-sufjan.s3.us-east-2.amazonaws.com"

/-- Credit cost of a generation, from the source line
`Math.max(1, Math.ceil(data.text.length / 100))`; for a natural-number
length, `Math.ceil(len / 100)` is exact and equals `(len + 99) / 100` in
truncating natural division. -/
def creditsNeeded (len : ℕ) : ℕ := max 1 ((len + 99) / 100)

/-- Modelled from the spec: the Prisma schema file is not part of the sources
under `src/`, so the stored default for an omitted synthesis parameter in
`db.audioProject.create` is taken from the spec, which states the two numeric
control parameters default to the mid-range value 0.5 when absent. -/
def paramOrDefault (p : Option ℚ) : ℚ := p.getD (1 / 2)

/-- Outcome of the single `fetch` to the inference provider, as observable by
the action: a 2xx response with the parsed `s3_Key`, a non-2xx response
(`!response.ok`), a thrown exception from `fetch` itself (timeout, network),
or a thrown exception from `response.json()` (malformed payload).  The two
thrown cases land in the surrounding `catch`. -/
inductive ProviderOutcome where
  | ok (s3Key : String)
  | httpError
  | fetchThrown
  | malformedPayload
deriving DecidableEq, Repr

/-- Externally visible side effects of one `generateSpeech` call, in
program order. -/
inductive Effect where
  | providerCall (text voice language : String) (exaggeration cfg : ℚ)
  | debit (uid : String) (amount : ℕ)
  | projectCreate (p : AudioProject)
deriving DecidableEq, Repr

/-- Message of the insufficient-credits failure, built exactly as the source
template literal builds it, carrying both the required and available
amounts. -/
def insufficientMsg (needed : ℕ) (avail : ℤ) : String :=
  s!"Insufficient credits. Need {needed}, have {avail}"

/-- Result triple of one `generateSpeech` call: the returned object, the
database state after the call, and the list of side effects performed. -/
structure GSOutcome where
  result : GenerateSpeechResult
  db : DBState
  effects : List Effect
deriving DecidableEq, Repr

/-- The `generateSpeech` server action.  `session` is the user id of the
authenticated session (`none` when there is no session; an empty id is falsy
and also unauthorized).  `provider` is the behaviour of the single outbound
`fetch` for this call.  Fresh project ids are generated from the table
length, standing in for the ORM's id generator. -/
def generateSpeech (session : Option String) (data : GenerateSpeechData)
    (db : DBState) (provider : ProviderOutcome) : GSOutcome :=
  match session with
  | none => ⟨{ success := false, error := some "Unauthorized" }, db, []⟩
  | some uid =>
    if uid.isEmpty then
      ⟨{ success := false, error := some "Unauthorized" }, db, []⟩
    else if strFalsy data.text || strFalsy data.voice_S3_key || strFalsy data.language then
      ⟨{ success := false, error := some "Missing required fields" }, db, []⟩
    else
      let text := data.text.getD ""
      let voice := data.voice_S3_key.getD ""
      let language := data.language.getD ""
      let cost := creditsNeeded text.length
      match db.findCredits uid with
      | none => ⟨{ success := false, error := some "User not found" }, db, []⟩
      | some credits =>
        if credits < (cost : ℤ) then
          ⟨{ success := false, error := some (insufficientMsg cost credits) }, db, []⟩
        else
          let call := Effect.providerCall text voice language
            (paramOrDefault data.exaggeration) (paramOrDefault data.cfg_weight)
          match provider with
          | .fetchThrown =>
            ⟨{ success := false, error := some "Internal server error" }, db, [call]⟩
          | .httpError =>
            ⟨{ success := false, error := some "Failed to generate speech" }, db, [call]⟩
          | .malformedPayload =>
            ⟨{ success := false, error := some "Internal server error" }, db, [call]⟩
          | .ok key =>
            let audioUrl := S3_BUCKET_URL ++ "/" ++ key
            let db1 := db.debit uid cost
            let proj : AudioProject :=
              { id := "proj-" ++ toString db.projects.length
                text := text
                audioUrl := audioUrl
                s3Key := key
                language := language
                voiceS3key := voice
                exaggeration := paramOrDefault data.exaggeration
                cfgWeight := paramOrDefault data.cfg_weight
                userId := uid }
            let db2 := { db1 with projects := proj :: db1.projects }
            ⟨{ success := true
               s3_key := some key
               audioUrl := some audioUrl
               projectId := some proj.id
               error := none },
             db2,
             [call, .debit uid cost, .projectCreate proj]⟩

/-- Result object of `deleteAudioProject`. -/
structure DeleteResult where
  success : Bool
  error : Option String := none
deriving DecidableEq, Repr

/-- The `deleteAudioProject` server action: authenticate, fetch the row by
id, and delete only when it exists and its owner is the caller; a missing
row and a row owned by someone else take the same failure branch. -/
def deleteAudioProject (session : Option String) (id : String) (db : DBState) :
    DeleteResult × DBState :=
  match session with
  | none => (⟨false, some "Unauthorized"⟩, db)
  | some uid =>
    if uid.isEmpty then
      (⟨false, some "Unauthorized"⟩, db)
    else
      match db.findProject id with
      | none => (⟨false, some "Not found or unauthorized"⟩, db)
      | some project =>
        if project.userId ≠ uid then
          (⟨false, some "Not found or unauthorized"⟩, db)
        else
          (⟨true, none⟩, { db with projects := db.projects.filter fun p => p.id ≠ id })

/-- The static credit-package table of the billing webhook, keyed by the
payment provider's product id. -/
def CREDIT_PACKAGES : String → Option ℕ := fun pid =>
  if pid = "1f4845d1-6550-4163-9e86-814913d357ed" then some 50
  else if pid = "10806cf4-e388-49b5-8c34-d22e01e943a3" then some 200
  else if pid = "da30ecbb-73f5-4245-ae4a-8a6db24ff312" then some 400
  else none

/-- Termination of one webhook-handler run: the handler either throws an
error (the row update on a missing user also surfaces as a thrown ORM
error) or returns after applying the increment. -/
inductive WebhookOutcome where
  | thrown (msg : String)
  | applied (db : DBState)
deriving DecidableEq, Repr

/-- The fields of an order-paid webhook event that the handler reads. -/
structure OrderEvent where
  externalCustomerId : Option String
  productId : Option String
deriving DecidableEq, Repr

/-- The `onOrderPaid` webhook handler: reject (log and throw) when the
external customer reference is falsy; otherwise map the product id through
the static table (falsy or unknown id maps to 0, with no logging) and apply
an atomic increment.  Returns the thrown error or the updated state, paired
with everything written to the error log. -/
def onOrderPaid (order : OrderEvent) (db : DBState) :
    WebhookOutcome × List String :=
  if strFalsy order.externalCustomerId then
    (.thrown "No external customer id found.", ["No external customer ID found."])
  else
    let ecid := order.externalCustomerId.getD ""
    let creditsToAdd : ℕ :=
      match order.productId with
      | none => 0
      | some pid => if pid.isEmpty then 0 else (CREDIT_PACKAGES pid).getD 0
    match db.findCredits ecid with
    | none => (.thrown "Record to update not found.", [])
    | some _ => (.applied (db.credit ecid creditsToAdd), [])

/-- Boolean prefix test on strings, evaluating on the underlying character
lists; mirrors JavaScript `String.prototype.startsWith` as used by the MIME
check `file.type.startsWith("audio/")`. -/
def strStartsWith (s pre : String) : Bool := pre.data.isPrefixOf s.data

/-- The uploaded file as the action observes it: name, MIME type, byte
size. -/
structure VoiceFile where
  name : String
  type : String
  size : ℕ
deriving DecidableEq, Repr

/-- One row of the `uploadedVoice` table. -/
structure UploadedVoice where
  id : String
  name : String
  s3Key : String
  url : String
  userId : String
deriving DecidableEq, Repr

/-- Result object of `uploadVoice` (interface `UploadVoiceResult`). -/
structure UploadVoiceResult where
  success : Bool
  id : Option String := none
  s3Key : Option String := none
  url : Option String := none
  error : Option String := none
deriving DecidableEq, Repr

/-- Side effects of one `uploadVoice` call: the S3 `PutObjectCommand` and the
metadata-row creation. -/
inductive UploadEffect where
  | s3Put (key contentType : String) (size : ℕ)
  | voiceCreate (v : UploadedVoice)
deriving DecidableEq, Repr

/-- Maximum allowed voice-sample size: 10 MiB. -/
def MAX_FILE_SIZE : ℕ := 10 * 1024 * 1024

/-- File extension as the source computes it: `file.name.split(".").pop()`. -/
def fileExtension (name : String) : String :=
  (name.splitOn ".").getLastD ""

/-- The `uploadVoice` server action.  `now` is the millisecond timestamp
`Date.now()` returns for this call and `signedUrl` the URL the presigner
returns; both are inputs of the environment.  Returns the result object, the
`uploadedVoice` table after the call, and the effects performed. -/
def uploadVoice (session : Option String) (awsConfigured : Bool)
    (file : Option VoiceFile) (now : ℕ) (signedUrl : String)
    (voices : List UploadedVoice) :
    UploadVoiceResult × List UploadedVoice × List UploadEffect :=
  match session with
  | none => (⟨false, none, none, none, some "Unauthorized"⟩, voices, [])
  | some uid =>
    if uid.isEmpty then
      (⟨false, none, none, none, some "Unauthorized"⟩, voices, [])
    else if ¬ awsConfigured then
      (⟨false, none, none, none, some "AWS S3 not configured"⟩, voices, [])
    else
      match file with
      | none => (⟨false, none, none, none, some "No file provided"⟩, voices, [])
      | some f =>
        if ¬ strStartsWith f.type "audio/" then
          (⟨false, none, none, none, some "File must be audio"⟩, voices, [])
        else if f.size > MAX_FILE_SIZE then
          (⟨false, none, none, none, some "File must be under 10MB"⟩, voices, [])
        else
          let fileName := "voices/" ++ uid ++ "/" ++ toString now ++ "." ++ fileExtension f.name
          let rec0 : UploadedVoice :=
            { id := "voice-" ++ toString voices.length
              name := f.name
              s3Key := fileName
              url := signedUrl
              userId := uid }
          (⟨true, some rec0.id, some fileName, some signedUrl, none⟩,
           rec0 :: voices,
           [.s3Put fileName f.type f.size, .voiceCreate rec0])

/-!
Interleaving model of the balance check-then-debit sequence of
`generateSpeech`.  Two requests from the same account run concurrently
against the shared credit balance; each first performs the atomic read used
by the balance check (`findUnique` selecting `credits`) and, if the read
balance covers its cost, later performs the atomic unconditional decrement
(`credits: { decrement: cost }`).  Nothing orders the two requests' steps
against each other.
-/

/-- Control state of one in-flight generation request, restricted to the
steps that touch the balance. -/
inductive PState where
  | start
  | passed
  | failed
  | done
deriving DecidableEq, Repr

/-- Shared balance plus the control state of two concurrent requests. -/
structure Conc where
  credits : ℤ
  p1 : PState
  p2 : PState
deriving DecidableEq, Repr

/-- One interleaved step: either request may perform its balance check
(moving to `passed` or `failed` according to the balance it reads) or, once
past the check, its atomic unconditional decrement. -/
inductive DStep (c1 c2 : ℤ) : Conc → Conc → Prop
  | check1Pass (b : ℤ) (q : PState) (h : c1 ≤ b) :
      DStep c1 c2 ⟨b, .start, q⟩ ⟨b, .passed, q⟩
  | check1Fail (b : ℤ) (q : PState) (h : b < c1) :
      DStep c1 c2 ⟨b, .start, q⟩ ⟨b, .failed, q⟩
  | debit1 (b : ℤ) (q : PState) :
      DStep c1 c2 ⟨b, .passed, q⟩ ⟨b - c1, .done, q⟩
  | check2Pass (b : ℤ) (q : PState) (h : c2 ≤ b) :
      DStep c1 c2 ⟨b, q, .start⟩ ⟨b, q, .passed⟩
  | check2Fail (b : ℤ) (q : PState) (h : b < c2) :
      DStep c1 c2 ⟨b, q, .start⟩ ⟨b, q, .failed⟩
  | debit2 (b : ℤ) (q : PState) :
      DStep c1 c2 ⟨b, q, .passed⟩ ⟨b - c2, q, .done⟩

/-- Reachability under any interleaving of the two requests' steps. -/
def DReach (c1 c2 : ℤ) : Conc → Conc → Prop :=
  Relation.ReflTransGen (DStep c1 c2)

/-!
Helper lemmas about balance lookups after the map-based row update, shared
by the claims about exact debits and credits.
-/

/-- Updating the row of `uid` through `f` changes the looked-up balance of
`uid` to `f` of its old value. -/
theorem lookup_adjust_self (users : List (String × ℤ)) (uid : String) (f : ℤ → ℤ) (c : ℤ)
    (h : users.lookup uid = some c) :
    (users.map fun p => if p.1 = uid then (p.1, f p.2) else p).lookup uid = some (f c) := by
  induction users with
  | nil => simp [List.lookup] at h
  | cons hd tl ih =>
    rcases hd with ⟨k, v⟩
    rcases eq_or_ne uid k with hk | hk
    · subst hk
      simp [List.lookup_cons] at h ⊢
      simp [h]
    · simp [List.lookup_cons, beq_false_of_ne hk, if_neg (Ne.symm hk)] at h ⊢
      exact ih h

/-- Updating the row of `uid` leaves every other account's balance
unchanged. -/
theorem lookup_adjust_other (users : List (String × ℤ)) (uid other : String) (f : ℤ → ℤ)
    (h : other ≠ uid) :
    (users.map fun p => if p.1 = uid then (p.1, f p.2) else p).lookup other =
      users.lookup other := by
  induction users with
  | nil => simp
  | cons hd tl ih =>
    rcases hd with ⟨k, v⟩
    rcases eq_or_ne k uid with hk | hk
    · subst hk
      simp [List.lookup_cons, beq_false_of_ne h, ih]
    · simp [List.lookup_cons, if_neg hk, ih]

/-- Closed form of a `generateSpeech` run that passes every guard and whose
provider call succeeds: the exact result object, database state and effect
list. -/
theorem generateSpeech_ok_run (uid t v l key : String) (data : GenerateSpeechData)
    (db : DBState) (credits : ℤ)
    (huid : uid.isEmpty = false)
    (ht : data.text = some t) (ht1 : t.isEmpty = false)
    (hv : data.voice_S3_key = some v) (hv1 : v.isEmpty = false)
    (hl : data.language = some l) (hl1 : l.isEmpty = false)
    (hcred : db.findCredits uid = some credits)
    (hge : ¬ credits < (creditsNeeded t.length : ℤ)) :
    generateSpeech (some uid) data db (.ok key) =
      ⟨{ success := true
         s3_key := some key
         audioUrl := some (S3_BUCKET_URL ++ "/" ++ key)
         projectId := some ("proj-" ++ toString db.projects.length)
         error := none },
       { users := (db.debit uid (creditsNeeded t.length)).users
         projects :=
           { id := "proj-" ++ toString db.projects.length
             text := t, audioUrl := S3_BUCKET_URL ++ "/" ++ key, s3Key := key
             language := l, voiceS3key := v
             exaggeration := paramOrDefault data.exaggeration
             cfgWeight := paramOrDefault data.cfg_weight
             userId := uid } :: db.projects },
       [Effect.providerCall t v l (paramOrDefault data.exaggeration) (paramOrDefault data.cfg_weight),
        Effect.debit uid (creditsNeeded t.length),
        Effect.projectCreate
          { id := "proj-" ++ toString db.projects.length
            text := t, audioUrl := S3_BUCKET_URL ++ "/" ++ key, s3Key := key
            language := l, voiceS3key := v
            exaggeration := paramOrDefault data.exaggeration
            cfgWeight := paramOrDefault data.cfg_weight
            userId := uid }]⟩ := by
  simp [generateSpeech, huid, ht, ht1, hv, hv1, hl, hl1, hcred, hge, strFalsy, DBState.debit]

/-- Claim C1: the claim asserts `credits >= 0` in every reachable state even
under interleaved concurrent generation requests.  The code's balance check
is a plain read followed later by an unconditional atomic decrement, so two
requests from an account holding 1 credit, each costing 1 credit (the cost
of a 50-character text), can both pass their checks against the stale
balance and both debit, driving the balance to -1: from the nonnegative
initial state a negative state is reachable, refuting the interleaving part
of the invariant while each single request in isolation is floor-checked. -/
theorem check_then_debit_overdraws_balance :
    (0 : ℤ) ≤ 1 ∧
    DReach ((creditsNeeded 50 : ℕ) : ℤ) ((creditsNeeded 50 : ℕ) : ℤ)
      ⟨1, .start, .start⟩ ⟨-1, .done, .done⟩ ∧
    (-1 : ℤ) < 0 := by
  refine ⟨by norm_num, ?_, by norm_num⟩
  rw [show ((creditsNeeded 50 : ℕ) : ℤ) = 1 by norm_num [creditsNeeded]]
  show Relation.ReflTransGen (DStep 1 1) _ _
  apply Relation.ReflTransGen.head (DStep.check1Pass 1 .start (by norm_num))
  apply Relation.ReflTransGen.head (DStep.check2Pass 1 .passed (by norm_num))
  apply Relation.ReflTransGen.head (DStep.debit1 1 .passed)
  rw [show (1 : ℤ) - 1 = 0 by norm_num]
  apply Relation.ReflTransGen.head (DStep.debit2 0 .done)
  rw [show (0 : ℤ) - 1 = -1 by norm_num]

/-- Claim C2: an authenticated, well-formed request whose balance is below
the computed cost fails with the insufficient-credits message carrying both
the required and the available amounts, returns the database unchanged and
performs no effect at all: no provider call, no debit, no project-record
creation. -/
theorem insufficient_credits_rejected_without_side_effects
    (uid t v l : String) (data : GenerateSpeechData) (db : DBState)
    (provider : ProviderOutcome) (credits : ℤ)
    (huid : uid.isEmpty = false)
    (ht : data.text = some t) (ht1 : t.isEmpty = false)
    (hv : data.voice_S3_key = some v) (hv1 : v.isEmpty = false)
    (hl : data.language = some l) (hl1 : l.isEmpty = false)
    (hcred : db.findCredits uid = some credits)
    (hlow : credits < (creditsNeeded t.length : ℤ)) :
    generateSpeech (some uid) data db provider =
      ⟨{ success := false
         error := some (insufficientMsg (creditsNeeded t.length) credits) }, db, []⟩ := by
  simp [generateSpeech, huid, ht, ht1, hv, hv1, hl, hl1, hcred, hlow, strFalsy]

/-- Witness for C2: a concrete account with 0 credits and a 5-character text
(cost 1) is rejected with the message carrying 1 and 0, with no state
change and no effects. -/
theorem insufficient_credits_rejected_without_side_effects_witness :
    generateSpeech (some "u1") ⟨some "hello", some "v.wav", some "en", none, none⟩
        ⟨[("u1", 0)], []⟩ ProviderOutcome.httpError =
      ⟨{ success := false
         error := some (insufficientMsg (creditsNeeded "hello".length) 0) },
       ⟨[("u1", 0)], []⟩, []⟩ :=
  insufficient_credits_rejected_without_side_effects "u1" "hello" "v.wav" "en" _ _ _ 0
    (by decide) rfl (by decide) rfl (by decide) rfl (by decide) (by decide) (by decide)

/-- Counterexample for C3: the claim says every non-success provider
response (non-2xx, timeout, malformed payload) fails with the provider
error.  At a concrete run with sufficient credits, a thrown fetch (timeout)
and a malformed payload are caught by the surrounding handler and reported
as the generic internal error, not as the provider error; only the non-2xx
branch produces the provider error message. -/
theorem provider_timeout_reported_as_internal_error :
    (generateSpeech (some "u1") ⟨some "hi", some "v.wav", some "en", none, none⟩
        ⟨[("u1", 5)], []⟩ .fetchThrown).result.error = some "Internal server error" ∧
    (generateSpeech (some "u1") ⟨some "hi", some "v.wav", some "en", none, none⟩
        ⟨[("u1", 5)], []⟩ .fetchThrown).result.error ≠ some "Failed to generate speech" ∧
    (generateSpeech (some "u1") ⟨some "hi", some "v.wav", some "en", none, none⟩
        ⟨[("u1", 5)], []⟩ .malformedPayload).result.error = some "Internal server error" := by
  decide

/-- Claim C3 (amended): for every request that reaches the provider call,
any non-success provider outcome leaves the database exactly as it was (no
debit, no project record), the call fails, the only effect is the provider
call itself; the non-2xx branch reports the provider error while a timeout
or malformed payload surfaces as the generic internal error. -/
theorem provider_failure_no_debit_no_record
    (uid t v l : String) (data : GenerateSpeechData) (db : DBState)
    (provider : ProviderOutcome) (credits : ℤ)
    (huid : uid.isEmpty = false)
    (ht : data.text = some t) (ht1 : t.isEmpty = false)
    (hv : data.voice_S3_key = some v) (hv1 : v.isEmpty = false)
    (hl : data.language = some l) (hl1 : l.isEmpty = false)
    (hcred : db.findCredits uid = some credits)
    (hge : ¬ credits < (creditsNeeded t.length : ℤ))
    (hfail : provider = .httpError ∨ provider = .fetchThrown ∨ provider = .malformedPayload) :
    (generateSpeech (some uid) data db provider).db = db ∧
    (generateSpeech (some uid) data db provider).result.success = false ∧
    (generateSpeech (some uid) data db provider).effects =
      [Effect.providerCall t v l (paramOrDefault data.exaggeration)
        (paramOrDefault data.cfg_weight)] ∧
    (provider = .httpError →
      (generateSpeech (some uid) data db provider).result.error =
        some "Failed to generate speech") ∧
    ((provider = .fetchThrown ∨ provider = .malformedPayload) →
      (generateSpeech (some uid) data db provider).result.error =
        some "Internal server error") := by
  rcases hfail with h | h | h <;> subst h <;>
    simp [generateSpeech, huid, ht, ht1, hv, hv1, hl, hl1, hcred, hge, strFalsy]

/-- Witness for C3 (amended): a concrete non-2xx provider response leaves a
funded account's state untouched and reports the provider error. -/
theorem provider_failure_no_debit_no_record_witness :
    (generateSpeech (some "u1") ⟨some "hi", some "v.wav", some "en", none, none⟩
        ⟨[("u1", 5)], []⟩ .httpError).db = ⟨[("u1", 5)], []⟩ ∧
    (generateSpeech (some "u1") ⟨some "hi", some "v.wav", some "en", none, none⟩
        ⟨[("u1", 5)], []⟩ .httpError).result.success = false ∧
    (generateSpeech (some "u1") ⟨some "hi", some "v.wav", some "en", none, none⟩
        ⟨[("u1", 5)], []⟩ .httpError).result.error = some "Failed to generate speech" := by
  have h := provider_failure_no_debit_no_record "u1" "hi" "v.wav" "en"
    ⟨some "hi", some "v.wav", some "en", none, none⟩ ⟨[("u1", 5)], []⟩ .httpError 5
    (by decide) rfl (by decide) rfl (by decide) rfl (by decide) (by decide) (by decide)
    (Or.inl rfl)
  exact ⟨h.1, h.2.1, h.2.2.2.1 rfl⟩

/-- Claim C4: the credit cost is a deterministic function of the request
text alone, equal to `max 1 ⌈len / 100⌉` (the true rational ceiling, as
`Math.ceil` computes it): a 100-character text costs 1, a 101-character
text costs 2, a 250-character text costs 3; and a successful generation
leaves the balance at exactly the prior balance minus this cost. -/
theorem generation_cost_and_exact_debit
    (uid t v l key : String) (data : GenerateSpeechData) (db : DBState) (credits : ℤ)
    (huid : uid.isEmpty = false)
    (ht : data.text = some t) (ht1 : t.isEmpty = false)
    (hv : data.voice_S3_key = some v) (hv1 : v.isEmpty = false)
    (hl : data.language = some l) (hl1 : l.isEmpty = false)
    (hcred : db.findCredits uid = some credits)
    (hge : ¬ credits < (creditsNeeded t.length : ℤ)) :
    (∀ n : ℕ, creditsNeeded n = max 1 ⌈(n : ℚ) / 100⌉₊) ∧
    creditsNeeded 100 = 1 ∧ creditsNeeded 101 = 2 ∧ creditsNeeded 250 = 3 ∧
    (generateSpeech (some uid) data db (.ok key)).result.success = true ∧
    (generateSpeech (some uid) data db (.ok key)).db.findCredits uid =
      some (credits - creditsNeeded t.length) := by
  refine ⟨?_, by decide, by decide, by decide, ?_, ?_⟩
  · intro n
    rcases Nat.eq_zero_or_pos n with h0 | hpos
    · subst h0; simp [creditsNeeded]
    · have hkne : (n + 99) / 100 ≠ 0 := by omega
      have hub : ⌈(n : ℚ) / 100⌉₊ ≤ (n + 99) / 100 := by
        rw [Nat.ceil_le, div_le_iff₀ (by norm_num : (0 : ℚ) < 100)]
        exact_mod_cast (show n ≤ (n + 99) / 100 * 100 by omega)
      have hlb : (n + 99) / 100 ≤ ⌈(n : ℚ) / 100⌉₊ := by
        have h1 : (n + 99) / 100 - 1 < ⌈(n : ℚ) / 100⌉₊ := by
          rw [Nat.lt_ceil, lt_div_iff₀ (by norm_num : (0 : ℚ) < 100)]
          exact_mod_cast (show ((n + 99) / 100 - 1) * 100 < n by omega)
        omega
      rw [le_antisymm hub hlb]
      simp [creditsNeeded]
  · rw [generateSpeech_ok_run uid t v l key data db credits huid ht ht1 hv hv1 hl hl1 hcred hge]
  · rw [generateSpeech_ok_run uid t v l key data db credits huid ht ht1 hv hv1 hl hl1 hcred hge]
    simp only [DBState.findCredits, DBState.debit]
    exact lookup_adjust_self db.users uid (fun x => x - (creditsNeeded t.length : ℤ))
      credits hcred

/-- Witness for C4: a funded account generating from a 5-character text is
debited exactly 1 credit (5 to 4), and the concrete cost values hold. -/
theorem generation_cost_and_exact_debit_witness :
    (∀ n : ℕ, creditsNeeded n = max 1 ⌈(n : ℚ) / 100⌉₊) ∧
    creditsNeeded 100 = 1 ∧ creditsNeeded 101 = 2 ∧ creditsNeeded 250 = 3 ∧
    (generateSpeech (some "u1") ⟨some "hello", some "v.wav", some "en", none, none⟩
        ⟨[("u1", 5)], []⟩ (.ok "out.wav")).result.success = true ∧
    (generateSpeech (some "u1") ⟨some "hello", some "v.wav", some "en", none, none⟩
        ⟨[("u1", 5)], []⟩ (.ok "out.wav")).db.findCredits "u1" =
      some (5 - creditsNeeded "hello".length) :=
  generation_cost_and_exact_debit "u1" "hello" "v.wav" "en" "out.wav"
    ⟨some "hello", some "v.wav", some "en", none, none⟩ ⟨[("u1", 5)], []⟩ 5
    (by decide) rfl (by decide) rfl (by decide) rfl (by decide) (by decide) (by decide)

/-- Claim C5: every successful `generateSpeech` call pushes exactly one new
project row onto the table, owned by the requesting account, whose
`language`, `exaggeration` and `cfgWeight` columns equal the request's
inputs, the two numeric parameters falling back to the stored default 0.5
when omitted from the request (default modelled from the spec, as the
schema file is not among the sources). -/
theorem success_creates_single_owned_project
    (uid t v l key : String) (data : GenerateSpeechData) (db : DBState) (credits : ℤ)
    (huid : uid.isEmpty = false)
    (ht : data.text = some t) (ht1 : t.isEmpty = false)
    (hv : data.voice_S3_key = some v) (hv1 : v.isEmpty = false)
    (hl : data.language = some l) (hl1 : l.isEmpty = false)
    (hcred : db.findCredits uid = some credits)
    (hge : ¬ credits < (creditsNeeded t.length : ℤ)) :
    ∃ p : AudioProject,
      (generateSpeech (some uid) data db (.ok key)).result.success = true ∧
      (generateSpeech (some uid) data db (.ok key)).db.projects = p :: db.projects ∧
      p.userId = uid ∧
      p.language = l ∧
      (∀ q : ℚ, data.exaggeration = some q → p.exaggeration = q) ∧
      (∀ q : ℚ, data.cfg_weight = some q → p.cfgWeight = q) ∧
      (data.exaggeration = none → p.exaggeration = 1 / 2) ∧
      (data.cfg_weight = none → p.cfgWeight = 1 / 2) := by
  rw [generateSpeech_ok_run uid t v l key data db credits huid ht ht1 hv hv1 hl hl1 hcred hge]
  refine ⟨_, rfl, rfl, rfl, rfl, ?_, ?_, ?_, ?_⟩
  · intro q hq; simp [paramOrDefault, hq]
  · intro q hq; simp [paramOrDefault, hq]
  · intro hq; simp [paramOrDefault, hq]
  · intro hq; simp [paramOrDefault, hq]

/-- Witness for C5: a concrete successful generation with both numeric
parameters omitted creates one row owned by the caller with both parameters
stored as 0.5. -/
theorem success_creates_single_owned_project_witness :
    ∃ p : AudioProject,
      (generateSpeech (some "u1") ⟨some "hello", some "v.wav", some "en", none, none⟩
          ⟨[("u1", 5)], []⟩ (.ok "out.wav")).result.success = true ∧
      (generateSpeech (some "u1") ⟨some "hello", some "v.wav", some "en", none, none⟩
          ⟨[("u1", 5)], []⟩ (.ok "out.wav")).db.projects = p :: [] ∧
      p.userId = "u1" ∧
      p.language = "en" ∧
      (∀ q : ℚ, (none : Option ℚ) = some q → p.exaggeration = q) ∧
      (∀ q : ℚ, (none : Option ℚ) = some q → p.cfgWeight = q) ∧
      ((none : Option ℚ) = none → p.exaggeration = 1 / 2) ∧
      ((none : Option ℚ) = none → p.cfgWeight = 1 / 2) :=
  success_creates_single_owned_project "u1" "hello" "v.wav" "en" "out.wav"
    ⟨some "hello", some "v.wav", some "en", none, none⟩ ⟨[("u1", 5)], []⟩ 5
    (by decide) rfl (by decide) rfl (by decide) rfl (by decide) (by decide) (by decide)

/-- Counterexample for C6: the claim says an unrecognized product id
credits zero with the anomaly logged.  At a concrete event for an existing
account and a product id outside the table, the handler applies a zero
increment and its log output is empty: nothing is logged, refuting the
logging part of the claim. -/
theorem unknown_product_credits_zero_without_log :
    onOrderPaid ⟨some "u1", some "prod-unknown"⟩ ⟨[("u1", 10)], []⟩ =
      (.applied ⟨[("u1", 10)], []⟩, []) := by decide

/-- Claim C6 (amended): an authenticated order-paid event carrying an
external customer reference to an existing account increments exactly that
account's balance by exactly the amount the static three-tier table maps
the product id to, leaving every other account untouched; a product id not
in the table increments by zero and — silently, with no log written. -/
theorem order_paid_increments_by_tier (ecid pid : String) (db : DBState) (credits : ℤ)
    (hecid : ecid.isEmpty = false) (hpid : pid.isEmpty = false)
    (hfound : db.findCredits ecid = some credits) :
    (∀ amount : ℕ, CREDIT_PACKAGES pid = some amount →
      onOrderPaid ⟨some ecid, some pid⟩ db = (.applied (db.credit ecid amount), []) ∧
      (db.credit ecid amount).findCredits ecid = some (credits + amount) ∧
      ∀ other : String, other ≠ ecid →
        (db.credit ecid amount).findCredits other = db.findCredits other) ∧
    (CREDIT_PACKAGES pid = none →
      onOrderPaid ⟨some ecid, some pid⟩ db = (.applied (db.credit ecid 0), []) ∧
      (db.credit ecid 0).findCredits ecid = some credits) := by
  constructor
  · intro amount hamt
    refine ⟨?_, ?_, ?_⟩
    · simp [onOrderPaid, strFalsy, hecid, hfound, hpid, hamt]
    · simpa [DBState.credit, DBState.findCredits] using
        lookup_adjust_self db.users ecid (fun x => x + (amount : ℤ)) credits hfound
    · intro other hother
      simpa [DBState.credit, DBState.findCredits] using
        lookup_adjust_other db.users ecid other (fun x => x + (amount : ℤ)) hother
  · intro hnone
    refine ⟨?_, ?_⟩
    · simp [onOrderPaid, strFalsy, hecid, hfound, hpid, hnone]
    · simpa [DBState.credit, DBState.findCredits] using
        lookup_adjust_self db.users ecid (fun x => x + ((0 : ℕ) : ℤ)) credits hfound

/-- Witness for C6 (amended): buying the small package credits an account
holding 10 credits with exactly 50, and an unknown product id applies a
zero increment with no log. -/
theorem order_paid_increments_by_tier_witness :
    onOrderPaid ⟨some "u1", some "1f4845d1-6550-4163-9e86-814913d357ed"⟩ ⟨[("u1", 10)], []⟩ =
      (.applied (DBState.credit ⟨[("u1", 10)], []⟩ "u1" 50), []) ∧
    (DBState.credit ⟨[("u1", 10)], []⟩ "u1" 50).findCredits "u1" = some (10 + (50 : ℕ)) ∧
    onOrderPaid ⟨some "u1", some "prod-unknown"⟩ ⟨[("u1", 10)], []⟩ =
      (.applied (DBState.credit ⟨[("u1", 10)], []⟩ "u1" 0), []) := by
  have hk := (order_paid_increments_by_tier "u1" "1f4845d1-6550-4163-9e86-814913d357ed"
    ⟨[("u1", 10)], []⟩ 10 (by decide) (by decide) (by decide)).1 50 (by decide)
  have hu := (order_paid_increments_by_tier "u1" "prod-unknown"
    ⟨[("u1", 10)], []⟩ 10 (by decide) (by decide) (by decide)).2 (by decide)
  exact ⟨hk.1, hk.2.1, hu.1⟩

/-- Counterexample for C7: the claim speaks of four required fields, but the
action validates only three (`text`, `voice_S3_key`, `language`).  A
concrete authenticated call with both numeric parameters absent — so at
least one field of any four-element set of required fields among the five
request fields is absent — raises no validation error at all: it succeeds
outright. -/
theorem omitted_numeric_fields_pass_validation :
    (generateSpeech (some "u1") ⟨some "hi", some "v.wav", some "en", none, none⟩
        ⟨[("u1", 5)], []⟩ (.ok "out.wav")).result.success = true ∧
    (generateSpeech (some "u1") ⟨some "hi", some "v.wav", some "en", none, none⟩
        ⟨[("u1", 5)], []⟩ (.ok "out.wav")).result.error = none := by decide

/-- Claim C7 (amended): for every authenticated call in which any of the
three validated required fields (`text`, `voice_S3_key`, `language`) is
absent or empty, the call fails with the missing-required-fields validation
error before any balance check (the database, including accounts in any
state, is returned unchanged) and before any external call (no effects). -/
theorem missing_required_string_field_rejected (uid : String) (data : GenerateSpeechData)
    (db : DBState) (provider : ProviderOutcome)
    (huid : uid.isEmpty = false)
    (h : (strFalsy data.text || strFalsy data.voice_S3_key || strFalsy data.language) = true) :
    generateSpeech (some uid) data db provider =
      ⟨{ success := false, error := some "Missing required fields" }, db, []⟩ := by
  simp [generateSpeech, huid, h]

/-- Witness for C7 (amended): a concrete authenticated call missing its
language field is rejected with the validation error, unchanged state, no
effects. -/
theorem missing_required_string_field_rejected_witness :
    generateSpeech (some "u1") ⟨some "hi", some "v.wav", none, none, none⟩
        ⟨[("u1", 5)], []⟩ (.ok "out.wav") =
      ⟨{ success := false, error := some "Missing required fields" },
       ⟨[("u1", 5)], []⟩, []⟩ :=
  missing_required_string_field_rejected "u1" ⟨some "hi", some "v.wav", none, none, none⟩
    ⟨[("u1", 5)], []⟩ (.ok "out.wav") (by decide) (by decide)

/-- Claim C8: deleting a record owned by a different account and deleting a
non-existent record id produce identical outcomes — the same
not-found-or-unauthorized failure — and in both cases the database is
returned unchanged (no record deleted), so the two failures are
indistinguishable to the caller. -/
theorem delete_unowned_and_missing_indistinguishable
    (uid id1 id2 : String) (p : AudioProject) (db : DBState)
    (huid : uid.isEmpty = false)
    (h1 : db.findProject id1 = some p) (howner : p.userId ≠ uid)
    (h2 : db.findProject id2 = none) :
    deleteAudioProject (some uid) id1 db = deleteAudioProject (some uid) id2 db ∧
    deleteAudioProject (some uid) id1 db =
      (⟨false, some "Not found or unauthorized"⟩, db) := by
  simp [deleteAudioProject, huid, h1, h2, howner]

/-- Witness for C8: with one project owned by another account, deleting it
and deleting a non-existent id give the same failure and leave the table
intact. -/
theorem delete_unowned_and_missing_indistinguishable_witness :
    deleteAudioProject (some "u1") "p1"
        ⟨[], [⟨"p1", "t", "url", "k", "en", "v", 1 / 2, 1 / 2, "owner2"⟩]⟩ =
      deleteAudioProject (some "u1") "no-such-id"
        ⟨[], [⟨"p1", "t", "url", "k", "en", "v", 1 / 2, 1 / 2, "owner2"⟩]⟩ ∧
    deleteAudioProject (some "u1") "p1"
        ⟨[], [⟨"p1", "t", "url", "k", "en", "v", 1 / 2, 1 / 2, "owner2"⟩]⟩ =
      (⟨false, some "Not found or unauthorized"⟩,
       ⟨[], [⟨"p1", "t", "url", "k", "en", "v", 1 / 2, 1 / 2, "owner2"⟩]⟩) :=
  delete_unowned_and_missing_indistinguishable "u1" "p1" "no-such-id"
    ⟨"p1", "t", "url", "k", "en", "v", 1 / 2, 1 / 2, "owner2"⟩
    ⟨[], [⟨"p1", "t", "url", "k", "en", "v", 1 / 2, 1 / 2, "owner2"⟩]⟩
    (by decide) rfl (by decide) rfl

/-- Counterexample for C9: the claim requires an accepted file's size to be
under the 10 MiB ceiling, but the guard rejects only sizes strictly greater
than the ceiling: a concrete audio file of exactly 10 MiB (10485760 bytes)
is accepted, although its size is not under the ceiling. -/
theorem exactly_ten_mib_file_accepted :
    (uploadVoice (some "u1") true (some ⟨"s.wav", "audio/wav", 10485760⟩)
        1700000000000 "signed-url" []).1.success = true ∧
    ¬ (10485760 < MAX_FILE_SIZE) := by decide

/-- Claim C9 (amended): an authenticated upload is accepted exactly when the
MIME type begins with `audio/` and the size does not exceed the 10 MiB
ceiling (a file of exactly 10 MiB is accepted); a file failing either check
is rejected with no bytes stored and no metadata row written; an accepted
file is stored under a key namespaced by the uploading account id and the
call's timestamp. -/
theorem upload_validated_before_storage (uid url : String) (f : VoiceFile) (now : ℕ)
    (voices : List UploadedVoice)
    (huid : uid.isEmpty = false) :
    ((uploadVoice (some uid) true (some f) now url voices).1.success = true ↔
      strStartsWith f.type "audio/" = true ∧ f.size ≤ MAX_FILE_SIZE) ∧
    ((strStartsWith f.type "audio/" = false ∨ MAX_FILE_SIZE < f.size) →
      (uploadVoice (some uid) true (some f) now url voices).2.1 = voices ∧
      (uploadVoice (some uid) true (some f) now url voices).2.2 = []) ∧
    ((uploadVoice (some uid) true (some f) now url voices).1.success = true →
      (uploadVoice (some uid) true (some f) now url voices).1.s3Key =
        some ("voices/" ++ uid ++ "/" ++ toString now ++ "." ++ fileExtension f.name) ∧
      (uploadVoice (some uid) true (some f) now url voices).2.2 =
        [UploadEffect.s3Put
          ("voices/" ++ uid ++ "/" ++ toString now ++ "." ++ fileExtension f.name)
          f.type f.size,
         UploadEffect.voiceCreate
          { id := "voice-" ++ toString voices.length
            name := f.name
            s3Key := "voices/" ++ uid ++ "/" ++ toString now ++ "." ++ fileExtension f.name
            url := url
            userId := uid }]) := by
  by_cases ha : strStartsWith f.type "audio/"
  · by_cases hs : f.size ≤ MAX_FILE_SIZE
    · have hs' : ¬ MAX_FILE_SIZE < f.size := Nat.not_lt.mpr hs
      simp [uploadVoice, huid, ha, hs, hs']
    · have hs' : MAX_FILE_SIZE < f.size := Nat.not_le.mp hs
      simp [uploadVoice, huid, ha, hs, hs']
  · simp [uploadVoice, huid, ha]

/-- Witness for C9 (amended): a concrete 1-kilobyte audio file from an
authenticated account is accepted and stored under the namespaced key. -/
theorem upload_validated_before_storage_witness :
    ((uploadVoice (some "u1") true (some ⟨"sample.wav", "audio/wav", 1024⟩)
        1700000000000 "signed-url" []).1.success = true ↔
      strStartsWith "audio/wav" "audio/" = true ∧ 1024 ≤ MAX_FILE_SIZE) ∧
    ((uploadVoice (some "u1") true (some ⟨"sample.wav", "audio/wav", 1024⟩)
        1700000000000 "signed-url" []).1.success = true →
      (uploadVoice (some "u1") true (some ⟨"sample.wav", "audio/wav", 1024⟩)
          1700000000000 "signed-url" []).1.s3Key =
        some ("voices/" ++ "u1" ++ "/" ++ toString 1700000000000 ++ "." ++
          fileExtension "sample.wav")) := by
  have h := upload_validated_before_storage "u1" "signed-url"
    ⟨"sample.wav", "audio/wav", 1024⟩ 1700000000000 [] (by decide)
  exact ⟨h.1, fun hsucc => (h.2.2 hsucc).1⟩

/-- Claim C10: an authenticated call whose text is the empty string is
rejected by the required-fields check (the empty string is falsy), with the
database unchanged and no effects: no cost is charged for empty input, so
the nominal 1-credit floor for empty text is unreachable through the
action. -/
theorem empty_text_rejected_before_pricing (uid : String) (data : GenerateSpeechData)
    (db : DBState) (provider : ProviderOutcome)
    (huid : uid.isEmpty = false) (ht : data.text = some "") :
    generateSpeech (some uid) data db provider =
      ⟨{ success := false, error := some "Missing required fields" }, db, []⟩ := by
  have he : ("" : String).isEmpty = true := by decide
  simp [generateSpeech, huid, ht, strFalsy, he]

/-- Witness for C10: a concrete authenticated empty-text request against a
funded account is rejected with no debit and no effects. -/
theorem empty_text_rejected_before_pricing_witness :
    generateSpeech (some "u1") ⟨some "", some "v.wav", some "en", none, none⟩
        ⟨[("u1", 5)], []⟩ (.ok "out.wav") =
      ⟨{ success := false, error := some "Missing required fields" },
       ⟨[("u1", 5)], []⟩, []⟩ :=
  empty_text_rejected_before_pricing "u1" ⟨some "", some "v.wav", some "en", none, none⟩
    ⟨[("u1", 5)], []⟩ (.ok "out.wav") (by decide) rfl
